import Mathlib

/-!
Verification development for the persistentwin window-placement persistence
engine. The Rust sources (src/main.rs, src/window.rs, src/hook.rs,
src/monitor.rs, src/process.rs) are shallowly embedded below: OS queries are
abstracted into an explicit environment record, the in-memory SQLite store is
modelled as lists of rows with the same key semantics (REPLACE INTO with a
four-column primary key, INSERT OR IGNORE on a UNIQUE blob column), and the
bson serialization of placement and topology values is modelled by a canonical
injective encoding into integer lists.
-/

set_option maxHeartbeats 1000000

/-- Error value standing for a failed Win32/SQLite call. The Rust code carries
anyhow context strings; only success/failure matters for the properties here. -/
inductive OsError where
  | apiFailure
deriving DecidableEq, Repr

/-- Mirrors `struct Point { x: i32, y: i32 }` from main.rs. -/
structure Point where
  x : Int
  y : Int
deriving DecidableEq, Repr

/-- Mirrors `struct Rect { left, top, right, bottom: i32 }` from main.rs. -/
structure Rect where
  left : Int
  top : Int
  right : Int
  bottom : Int
deriving DecidableEq, Repr

/-- Mirrors `Rect::width` (`(self.right - self.left).abs() as u32`). -/
def Rect.width (r : Rect) : Nat := (r.right - r.left).natAbs

/-- Mirrors `Rect::height` (`(self.bottom - self.top).abs() as u32`). -/
def Rect.height (r : Rect) : Nat := (r.bottom - r.top).natAbs

/-- Mirrors the Win32 `WINDOWPLACEMENT` struct as used by main.rs/window.rs:
`length`, `flags`, `showCmd` (u32 values), the min/max positions and the
normal-position rectangle. -/
structure WINDOWPLACEMENT where
  length : Nat
  flags : Nat
  showCmd : Nat
  ptMinPosition : Point
  ptMaxPosition : Point
  rcNormalPosition : Rect
deriving DecidableEq, Repr

/-- Mirrors `struct WindowDisplay { show: u32, min: Point, max: Point, rect: Rect }`
from main.rs. The source field `show` is a Lean keyword, hence `show_st`. -/
structure WindowDisplay where
  show_st : Nat
  min : Point
  max : Point
  rect : Rect
deriving DecidableEq, Repr

/-- Mirrors `impl From<WINDOWPLACEMENT> for WindowDisplay` in main.rs:
keeps showCmd and the three geometry fields, drops length and flags. -/
def WindowDisplay.fromPlacement (wp : WINDOWPLACEMENT) : WindowDisplay :=
  { show_st := wp.showCmd
    min := wp.ptMinPosition
    max := wp.ptMaxPosition
    rect := wp.rcNormalPosition }

/-- Win32 constant `SW_SHOWNORMAL`. -/
def SW_SHOWNORMAL : Nat := 1

/-- Win32 constant `SW_MAXIMIZE`. -/
def SW_MAXIMIZE : Nat := 3

/-- Win32 constant `WPF_ASYNCWINDOWPLACEMENT`. -/
def WPF_ASYNCWINDOWPLACEMENT : Nat := 4

/-- Value of `core::mem::size_of::<WINDOWPLACEMENT>()` on the 64-bit target. -/
def WINDOWPLACEMENT_SIZE : Nat := 44

/-- Win32 constant `PROCESS_QUERY_INFORMATION` (0x0400). -/
def PROCESS_QUERY_INFORMATION : Nat := 1024

/-- Canonical encoding of a `Point`, modelling its bson field sequence. -/
def serializePoint (p : Point) : List Int := [p.x, p.y]

/-- Canonical encoding of a `Rect`, modelling its bson field sequence. -/
def serializeRect (r : Rect) : List Int := [r.left, r.top, r.right, r.bottom]

/-- Model of `bson::to_document(&WindowDisplay..).to_writer(..)` in
`App::capture_window`: a canonical injective encoding of the four fields in
declaration order. -/
def serializeWD (w : WindowDisplay) : List Int :=
  Int.ofNat w.show_st :: (serializePoint w.min ++ serializePoint w.max ++ serializeRect w.rect)

/-- Model of `bson::from_reader` in `App::find_window`: decodes the canonical
encoding produced by `serializeWD`, rejecting malformed input. -/
def deserializeWD (bytes : List Int) : Option WindowDisplay :=
  match bytes with
  | [s, ax, ay, bx, bz, l, t, r, b] =>
    if 0 ≤ s then
      some { show_st := s.toNat, min := ⟨ax, ay⟩, max := ⟨bx, bz⟩, rect := ⟨l, t, r, b⟩ }
    else
      none
  | _ => none

/-- Mirrors `struct Topology { monitors: Vec<Rect> }` from main.rs (named
`WinTopology` here because `Topology` collides with a Mathlib namespace). -/
structure WinTopology where
  monitors : List Rect
deriving DecidableEq, Repr

/-- Model of `bson::to_document(&Topology..).to_writer(..)` in
`App::capture_topology`: a canonical injective encoding of the monitor
rectangle sequence in enumeration order. -/
def serializeTopology (t : WinTopology) : List Int :=
  Int.ofNat t.monitors.length :: (t.monitors.map serializeRect).flatten

/-- Key of the `appwindow` table: `PRIMARY KEY (path, topology, class, title)`.
The source column `class` is a Lean keyword, hence `class_nm`. -/
structure AppWindowKey where
  path : String
  topology : Nat
  class_nm : String
  title : String
deriving DecidableEq, Repr

/-- One row of the `appwindow` table: the key columns plus the serialized
`WindowDisplay` blob stored in column `disp`. -/
structure AppWindowRow where
  key : AppWindowKey
  disp : List Int
deriving DecidableEq, Repr

/-- The in-memory SQLite database created in `run()`: table `appwindow`
(rows keyed by path/topology/class/title) and table `topology`
(rowid paired with the UNIQUE serialized-topology blob in column `data`). -/
structure AppDb where
  appwindow : List AppWindowRow
  topology : List (Nat × List Int)
deriving DecidableEq, Repr

/-- Equality test on `appwindow` primary keys, used for the conflict clause of
`REPLACE INTO appwindow`. -/
def sameKey (a b : AppWindowKey) : Bool :=
  a.path == b.path && a.topology == b.topology && a.class_nm == b.class_nm && a.title == b.title

/-- Model of `REPLACE INTO appwindow (path, topology, class, title, disp)`
from `App::capture_window`: the row conflicting on the primary key is deleted
and the new row inserted. -/
def dbReplaceAppWindow (db : AppDb) (k : AppWindowKey) (v : List Int) : AppDb :=
  { db with appwindow := ⟨k, v⟩ :: db.appwindow.filter (fun r => !(sameKey r.key k)) }

/-- Predicate of the `SELECT disp FROM appwindow WHERE topology=.. AND class=..
AND path=.. AND title=..` query in `App::find_window`. -/
def rowMatches (r : AppWindowRow) (topology : Nat) (path class_nm title : String) : Bool :=
  r.key.topology == topology && r.key.class_nm == class_nm && r.key.path == path && r.key.title == title

/-- Model of the `query_row` call in `App::find_window`: the first row whose
four key columns all match exactly, yielding its `disp` blob. -/
def dbQueryAppWindow (db : AppDb) (topology : Nat) (path class_nm title : String) : Option (List Int) :=
  (db.appwindow.find? (fun r => rowMatches r topology path class_nm title)).map (fun r => r.disp)

/-- Mirrors `App::find_window`: exact-match lookup of the serialized placement
followed by bson deserialization; `None` when no row matches. -/
def find_window (db : AppDb) (topology : Nat) (path class_nm title : String) : Option WindowDisplay :=
  match dbQueryAppWindow db topology path class_nm title with
  | some disp => deserializeWD disp
  | none => none

/-- SQLite rowid assignment for an insert into `topology`: one larger than the
largest existing rowid. -/
def next_row_id (db : AppDb) : Nat :=
  (db.topology.foldl (fun m r => Nat.max m r.1) 0) + 1

/-- Model of `INSERT OR IGNORE INTO topology (data) VALUES (..)` from
`App::capture_topology`: because column `data` is UNIQUE, the insert is
dropped when a row with the same blob already exists. -/
def dbInsertOrIgnoreTopology (db : AppDb) (bytes : List Int) : AppDb :=
  if db.topology.any (fun r => r.2 == bytes) then db
  else { db with topology := db.topology ++ [(next_row_id db, bytes)] }

/-- Model of `SELECT rowid FROM topology WHERE data=..` from
`App::capture_topology`. -/
def dbFindTopologyId (db : AppDb) (bytes : List Int) : Option Nat :=
  (db.topology.find? (fun r => r.2 == bytes)).map (fun r => r.1)

/-- Mirrors the Win32 `HWND` newtype over a pointer-sized integer. -/
structure HWND where
  id : Int
deriving DecidableEq, Repr

/-- Mirrors `struct OwnerInfo { process_id: u32, thread_id: u32 }` from window.rs. -/
structure OwnerInfo where
  process_id : Nat
  thread_id : Nat
deriving DecidableEq, Repr

/-- Abstraction of the OS surface consumed by the engine. Each field models
one Win32 query exactly as the Rust wrappers surface it: `is_visible`
(IsWindowVisible), `ancestor_root` (GetAncestor GA_ROOT), `class_name`,
`title`, `placement` (GetWindowPlacement), `owner`
(GetWindowThreadProcessId), `open_process` (OpenProcess by access and pid),
`full_image_name` (QueryFullProcessImageNameW on the returned handle),
`set_placement_ok` (whether SetWindowPlacement succeeds for a given call),
`windows` (EnumWindows via `window::windows()`), and `monitors`
(EnumDisplayMonitors followed by per-monitor GetMonitorInfoW, surfacing the
per-monitor `rect`). -/
structure Env where
  is_visible : HWND → Bool
  ancestor_root : HWND → HWND
  class_name : HWND → Except OsError String
  title : HWND → Except OsError String
  placement : HWND → Except OsError WINDOWPLACEMENT
  owner : HWND → Except OsError OwnerInfo
  open_process : Nat → Nat → Except OsError Nat
  full_image_name : Nat → Except OsError String
  set_placement_ok : HWND → WINDOWPLACEMENT → Bool
  windows : Except OsError (List HWND)
  monitors : Except OsError (List (Except OsError Rect))

/-- Mirrors `HwndExt::is_top_level`: the GA_ROOT ancestor's handle value
equals the window's own handle value. -/
def is_top_level (env : Env) (hwnd : HWND) : Bool :=
  (env.ancestor_root hwnd).id == hwnd.id

/-- Mirrors `App::capture_window`. The outer `Option` models the
`.expect("no active topology")` panic: `none` is the panic, `some` carries the
`anyhow::Result`. When the window is visible and top-level, identity and
placement are resolved (any failure propagates as this window's error) and the
serialized placement is written with `REPLACE INTO appwindow`; otherwise the
call succeeds without touching the store. -/
def capture_window (active : Option Nat) (env : Env) (db : AppDb) (hwnd : HWND) :
    Option (Except OsError AppDb) :=
  match active with
  | none => none
  | some topology =>
    if env.is_visible hwnd && is_top_level env hwnd then
      some (
        match env.class_name hwnd with
        | Except.error e => Except.error e
        | Except.ok class_nm =>
          match env.title hwnd with
          | Except.error e => Except.error e
          | Except.ok title =>
            match env.placement hwnd with
            | Except.error e => Except.error e
            | Except.ok placement =>
              match env.owner hwnd with
              | Except.error e => Except.error e
              | Except.ok owner =>
                match env.open_process PROCESS_QUERY_INFORMATION owner.process_id with
                | Except.error e => Except.error e
                | Except.ok proc =>
                  match env.full_image_name proc with
                  | Except.error e => Except.error e
                  | Except.ok exe =>
                    let rect := serializeWD (WindowDisplay.fromPlacement placement)
                    Except.ok (dbReplaceAppWindow db ⟨exe, topology, class_nm, title⟩ rect))
    else some (Except.ok db)

/-- The tail of `App::restore_window` after a store hit: build the
`WINDOWPLACEMENT` from the stored `WindowDisplay` with
`WPF_ASYNCWINDOWPLACEMENT` set; when the stored show-state is `SW_MAXIMIZE`,
first issue it with showCmd forced to `SW_SHOWNORMAL` and then re-issue the
original; every other show-state is issued in a single call. The second
result component is the trace of `SetWindowPlacement` calls, in order; a
failed call aborts with an error after the calls already issued. -/
def apply_restore_placement (env : Env) (hwnd : HWND) (rp : WindowDisplay) :
    Except OsError Unit × List WINDOWPLACEMENT :=
  let wnd_placement : WINDOWPLACEMENT :=
    { length := WINDOWPLACEMENT_SIZE
      flags := WPF_ASYNCWINDOWPLACEMENT
      showCmd := rp.show_st
      ptMinPosition := rp.min
      ptMaxPosition := rp.max
      rcNormalPosition := rp.rect }
  if rp.show_st = SW_MAXIMIZE then
    let first := { wnd_placement with showCmd := SW_SHOWNORMAL }
    if env.set_placement_ok hwnd first then
      if env.set_placement_ok hwnd wnd_placement then
        (Except.ok (), [first, wnd_placement])
      else
        (Except.error OsError.apiFailure, [first, wnd_placement])
    else
      (Except.error OsError.apiFailure, [first])
  else
    if env.set_placement_ok hwnd wnd_placement then
      (Except.ok (), [wnd_placement])
    else
      (Except.error OsError.apiFailure, [wnd_placement])

/-- Mirrors `App::restore_window`. The outer `Option` models the
`.expect("no active topology")` panic. The second component of the result is
the trace of `SetWindowPlacement` calls issued, in order. When the window is
visible, identity and current placement are resolved, the store is consulted
with `find_window`, and on a hit the stored placement is applied by
`apply_restore_placement`. -/
def restore_window (active : Option Nat) (env : Env) (db : AppDb) (hwnd : HWND) :
    Option (Except OsError Unit × List WINDOWPLACEMENT) :=
  match active with
  | none => none
  | some topology =>
    if env.is_visible hwnd then
      some (
        match env.class_name hwnd with
        | Except.error e => (Except.error e, [])
        | Except.ok class_nm =>
          match env.title hwnd with
          | Except.error e => (Except.error e, [])
          | Except.ok title =>
            match env.placement hwnd with
            | Except.error e => (Except.error e, [])
            | Except.ok _placement =>
              match env.owner hwnd with
              | Except.error e => (Except.error e, [])
              | Except.ok owner =>
                match env.open_process PROCESS_QUERY_INFORMATION owner.process_id with
                | Except.error e => (Except.error e, [])
                | Except.ok proc =>
                  match env.full_image_name proc with
                  | Except.error e => (Except.error e, [])
                  | Except.ok exe =>
                    match find_window db topology exe class_nm title with
                    | none => (Except.ok (), [])
                    | some rp => apply_restore_placement env hwnd rp)
    else some (Except.ok (), [])

/-- One step of the `for hwnd in handles` loop of `App::capture_windows`: a
per-window error is logged and dropped, a success threads the updated store, a
panic (`none`) propagates. -/
def capture_step (active : Option Nat) (env : Env) (acc : Option AppDb) (hwnd : HWND) :
    Option AppDb :=
  match acc with
  | none => none
  | some db =>
    match capture_window active env db hwnd with
    | none => none
    | some (Except.ok db2) => some db2
    | some (Except.error _) => some db

/-- Mirrors `App::capture_windows`: enumerate all windows (failure of the
enumeration itself is the only batch error), then capture each handle in
order, silently absorbing per-window failures. -/
def capture_windows (active : Option Nat) (env : Env) (db : AppDb) :
    Option (Except OsError AppDb) :=
  match env.windows with
  | Except.error _ => some (Except.error OsError.apiFailure)
  | Except.ok handles =>
    match handles.foldl (capture_step active env) (some db) with
    | none => none
    | some db2 => some (Except.ok db2)

/-- One step of the `for hwnd in handles` loop of `App::restore_windows`: the
per-window result is discarded (`let _ = ..`) but its set-placement trace is
recorded; a panic (`none`) propagates. -/
def restore_step (active : Option Nat) (env : Env) (db : AppDb)
    (acc : Option (List (HWND × List WINDOWPLACEMENT))) (hwnd : HWND) :
    Option (List (HWND × List WINDOWPLACEMENT)) :=
  match acc with
  | none => none
  | some calls =>
    match restore_window active env db hwnd with
    | none => none
    | some (_, trace) => some (calls ++ [(hwnd, trace)])

/-- Mirrors `App::restore_windows`: enumerate all windows (failure of the
enumeration itself is the only batch error), then restore each handle in
order, silently ignoring per-window failures. The payload collects each
handle's set-placement trace. -/
def restore_windows (active : Option Nat) (env : Env) (db : AppDb) :
    Option (Except OsError (List (HWND × List WINDOWPLACEMENT))) :=
  match env.windows with
  | Except.error _ => some (Except.error OsError.apiFailure)
  | Except.ok handles =>
    match handles.foldl (restore_step active env db) (some []) with
    | none => none
    | some calls => some (Except.ok calls)

/-- Mirrors `.collect::<Result<Vec<_>, _>>()` over the per-monitor info
queries in `App::capture_topology`: the first failure aborts the collection. -/
def collectRects : List (Except OsError Rect) → Except OsError (List Rect)
  | [] => Except.ok []
  | Except.error e :: _ => Except.error e
  | Except.ok r :: rest =>
    match collectRects rest with
    | Except.ok rs => Except.ok (r :: rs)
    | Except.error e => Except.error e

/-- Mirrors `App::capture_topology`: enumerate monitors, query each monitor's
rectangle, serialize the resulting `Topology` canonically, insert it with
`INSERT OR IGNORE` into the UNIQUE-constrained `topology` table, and return
the rowid found by exact content match, together with the updated store. -/
def capture_topology (env : Env) (db : AppDb) : Except OsError (Nat × AppDb) :=
  match env.monitors with
  | Except.error _ => Except.error OsError.apiFailure
  | Except.ok infos =>
    match collectRects infos with
    | Except.error _ => Except.error OsError.apiFailure
    | Except.ok rects =>
      let bytes := serializeTopology ⟨rects⟩
      let db2 := dbInsertOrIgnoreTopology db bytes
      match dbFindTopologyId db2 bytes with
      | some row_id => Except.ok (row_id, db2)
      | none => Except.error OsError.apiFailure

/-- State of the event-bridge module (hook.rs): the thread-local `EVENT_TABLE`
mapping the opaque `HWINEVENTHOOK` token to its subscription's callback
(callbacks are identified abstractly by a number), plus the set of hooks
currently installed at the OS level by `SetWinEventHook`. -/
structure HookState where
  event_table : List (Int × Nat)
  os_hooks : List Int
deriving DecidableEq, Repr

/-- Model of `HashMap::insert` on `EVENT_TABLE`: the binding for the token is
replaced. -/
def tableInsert (tab : List (Int × Nat)) (tok : Int) (cb : Nat) : List (Int × Nat) :=
  (tok, cb) :: tab.filter (fun r => !(r.1 == tok))

/-- Model of `HashMap::get` on `EVENT_TABLE`. -/
def tableGet (tab : List (Int × Nat)) (tok : Int) : Option Nat :=
  (tab.find? (fun r => r.1 == tok)).map (fun r => r.2)

/-- Mirrors `EventHook::register`: `SetWinEventHook` yields an OS token (given
here by the caller, as the OS chooses it), then the token is bound to the
callback in `EVENT_TABLE`. -/
def EventHook.register (s : HookState) (tok : Int) (cb : Nat) : HookState :=
  { event_table := tableInsert s.event_table tok cb
    os_hooks := tok :: s.os_hooks }

/-- Mirrors `EventHook::register_ranges`: one `SetWinEventHook` call per range
(the OS-chosen tokens are given by the caller), all tokens bound to the same
reference-counted callback. -/
def EventHook.register_ranges (s : HookState) (toks : List Int) (cb : Nat) : HookState :=
  toks.foldl (fun st tok => EventHook.register st tok cb) s

/-- Mirrors `EventHook::unregister`: the body is a single `UnhookWinEvent`
call, which removes the OS-level hook; no operation on `EVENT_TABLE` is
performed, so the token's table binding is left in place. -/
def EventHook.unregister (s : HookState) (handle : Int) : HookState :=
  { s with os_hooks := s.os_hooks.filter (fun t => !(t == handle)) }

/-- Mirrors the `event_cb` trampoline of hook.rs: the incoming hook token is
looked up in `EVENT_TABLE`; on a hit the bound callback is invoked with
`(event, hwnd)` (modelled by returning the invocation), on a miss the
notification is silently dropped (`none`). -/
def event_cb (s : HookState) (tok : Int) (event : Nat) (hwnd : HWND) :
    Option (Nat × Nat × HWND) :=
  match tableGet s.event_table tok with
  | some cb => some (cb, event, hwnd)
  | none => none

/-- Mirrors `HwndExt::title` from window.rs, as a function of the text the OS
holds for the window (a string of UTF-16 units without a terminator).
`GetWindowTextLengthW` reports the length; a zero length with no error is
returned as the empty string. Otherwise the code allocates a zeroed buffer of
`len + 1` units, `GetWindowTextW` fills it with the `len` text units followed
by the NUL terminator, and the **entire** buffer — terminator included — is
converted with `String::from_utf16`. -/
def HwndExt.title (actual : String) : Except OsError String :=
  let len := actual.data.length
  if len = 0 then
    Except.ok (String.mk [])
  else
    let buf := actual.data ++ [Char.ofNat 0]
    Except.ok (String.mk buf)

/-- Mirrors `HwndExt::class_name` from window.rs, as a function of the class
name the OS holds: a 256-unit zeroed buffer is filled by `GetClassNameW`,
which copies at most 255 units and returns the copied count `n`; only
`buf[..n]` — without the terminator — is converted, and `n = 0` is an error. -/
def HwndExt.class_name (actual : String) : Except OsError String :=
  let n := min actual.data.length 255
  if 0 < n then
    Except.ok (String.mk (actual.data.take n))
  else
    Except.error OsError.apiFailure

/-- The canonical placement encoding is decoded back to the original value. -/
theorem deserializeWD_serializeWD (w : WindowDisplay) :
    deserializeWD (serializeWD w) = some w := by
  simp [serializeWD, serializePoint, serializeRect, deserializeWD]

/-- Filtering by a predicate implied by the search predicate does not change
the result of `find?`. -/
theorem find?_filter_of_imp (p q : α → Bool) (l : List α)
    (h : ∀ a ∈ l, p a = true → q a = true) :
    (l.filter q).find? p = l.find? p := by
  induction l with
  | nil => rfl
  | cons a l ih =>
    have ha := h a (List.mem_cons_self a l)
    have hrest : ∀ b ∈ l, p b = true → q b = true := fun b hb => h b (List.mem_cons_of_mem a hb)
    by_cases hq : q a = true
    · rw [List.filter_cons_of_pos hq]
      by_cases hp : p a = true
      · rw [List.find?_cons_of_pos _ hp, List.find?_cons_of_pos _ hp]
      · rw [List.find?_cons_of_neg _ hp, List.find?_cons_of_neg _ hp]
        exact ih hrest
    · rw [List.filter_cons_of_neg hq]
      have hp : ¬ p a = true := by
        intro hc
        exact hq (ha hc)
      rw [List.find?_cons_of_neg _ hp]
      exact ih hrest

/-- With an active topology, `capture_window` never panics. -/
theorem capture_window_isSome (t : Nat) (env : Env) (db : AppDb) (hwnd : HWND) :
    (capture_window (some t) env db hwnd).isSome = true := by
  unfold capture_window
  split
  · next h => exact Option.noConfusion h
  · split <;> rfl

/-- With an active topology, `restore_window` never panics. -/
theorem restore_window_isSome (t : Nat) (env : Env) (db : AppDb) (hwnd : HWND) :
    (restore_window (some t) env db hwnd).isSome = true := by
  unfold restore_window
  split
  · next h => exact Option.noConfusion h
  · split <;> rfl

/-- A successful topology lookup means a row with that blob is present. -/
theorem dbFindTopologyId_any (db : AppDb) (bytes : List Int) (i : Nat)
    (h : dbFindTopologyId db bytes = some i) :
    db.topology.any (fun r => r.2 == bytes) = true := by
  unfold dbFindTopologyId at h
  cases hf : db.topology.find? (fun r => r.2 == bytes) with
  | none => rw [hf] at h; simp at h
  | some r =>
    have hmem := List.mem_of_find?_eq_some hf
    have hpred := List.find?_some hf
    exact List.any_eq_true.mpr ⟨r, hmem, hpred⟩

/-- Inserting a blob that is already present leaves the store unchanged. -/
theorem dbInsertOrIgnoreTopology_of_found (db : AppDb) (bytes : List Int)
    (h : db.topology.any (fun r => r.2 == bytes) = true) :
    dbInsertOrIgnoreTopology db bytes = db := by
  simp [dbInsertOrIgnoreTopology, h]

/-- The insert-if-absent into the topology table preserves distinctness of the
stored blobs. -/
theorem dbInsertOrIgnoreTopology_nodup (db : AppDb) (bytes : List Int)
    (h : (db.topology.map Prod.snd).Nodup) :
    ((dbInsertOrIgnoreTopology db bytes).topology.map Prod.snd).Nodup := by
  unfold dbInsertOrIgnoreTopology
  split
  · exact h
  · next hfound =>
    have hnotmem : bytes ∉ db.topology.map Prod.snd := by
      intro hmem
      obtain ⟨r, hr, hrb⟩ := List.mem_map.mp hmem
      apply hfound
      exact List.any_eq_true.mpr ⟨r, hr, by simp [hrb]⟩
    simp only [List.map_append, List.map_cons, List.map_nil]
    rw [List.nodup_append]
    refine ⟨h, List.nodup_singleton _, ?_⟩
    intro a ha hb
    rw [List.mem_singleton] at hb
    subst hb
    exact hnotmem ha

/-- The per-window outcome of one capture inside the batch loop, with the
per-window error already absorbed: on success the updated store, on failure
the store unchanged. -/
def capture_step_ok (t : Nat) (env : Env) (db : AppDb) (hwnd : HWND) : AppDb :=
  match capture_window (some t) env db hwnd with
  | some (Except.ok db2) => db2
  | _ => db

/-- The set-placement trace produced by restoring a single window with an
active topology. -/
def restore_calls (t : Nat) (env : Env) (db : AppDb) (hwnd : HWND) : List WINDOWPLACEMENT :=
  match restore_window (some t) env db hwnd with
  | some (_, trace) => trace
  | none => []

/-- The batch capture fold never panics with an active topology and computes
the error-absorbing fold of the per-window captures. -/
theorem capture_foldl_eq (t : Nat) (env : Env) (handles : List HWND) (db : AppDb) :
    handles.foldl (capture_step (some t) env) (some db) =
      some (handles.foldl (fun d h => capture_step_ok t env d h) db) := by
  induction handles generalizing db with
  | nil => rfl
  | cons a l ih =>
    rw [List.foldl_cons, List.foldl_cons]
    have hstep : capture_step (some t) env (some db) a = some (capture_step_ok t env db a) := by
      unfold capture_step capture_step_ok
      cases hcw : capture_window (some t) env db a with
      | none =>
        have h2 := capture_window_isSome t env db a
        rw [hcw] at h2
        simp at h2
      | some r => cases r <;> simp [hcw]
    rw [hstep, ih]

/-- The batch restore fold never panics with an active topology and collects
each handle's set-placement trace in order. -/
theorem restore_foldl_eq (t : Nat) (env : Env) (db : AppDb) (handles : List HWND)
    (acc : List (HWND × List WINDOWPLACEMENT)) :
    handles.foldl (restore_step (some t) env db) (some acc) =
      some (acc ++ handles.map (fun h => (h, restore_calls t env db h))) := by
  induction handles generalizing acc with
  | nil => simp
  | cons a l ih =>
    rw [List.foldl_cons]
    have hstep : restore_step (some t) env db (some acc) a =
        some (acc ++ [(a, restore_calls t env db a)]) := by
      unfold restore_step restore_calls
      cases hrw : restore_window (some t) env db a with
      | none =>
        have h2 := restore_window_isSome t env db a
        rw [hrw] at h2
        simp at h2
      | some r => cases r with | mk fst snd => simp [hrw]
    rw [hstep, ih]
    simp

/-- A window whose per-window capture fails leaves the store untouched, so the
batch fold skips it. -/
theorem capture_step_ok_of_error (t : Nat) (env : Env) (bad : HWND)
    (hbad : ∀ d : AppDb, ∃ e, capture_window (some t) env d bad = some (Except.error e))
    (d : AppDb) : capture_step_ok t env d bad = d := by
  obtain ⟨e, he⟩ := hbad d
  unfold capture_step_ok
  rw [he]

/-- With an active topology, a visible window and all identity queries
succeeding, `restore_window` reduces to the store lookup followed by
`apply_restore_placement`. -/
theorem restore_window_resolved (t : Nat) (env : Env) (db : AppDb) (hwnd : HWND)
    (cls ttl : String) (p : WINDOWPLACEMENT) (o : OwnerInfo) (ph : Nat) (exe : String)
    (hv : env.is_visible hwnd = true)
    (hc : env.class_name hwnd = Except.ok cls)
    (ht : env.title hwnd = Except.ok ttl)
    (hp : env.placement hwnd = Except.ok p)
    (ho : env.owner hwnd = Except.ok o)
    (hop : env.open_process PROCESS_QUERY_INFORMATION o.process_id = Except.ok ph)
    (hexe : env.full_image_name ph = Except.ok exe) :
    restore_window (some t) env db hwnd =
      some (match find_window db t exe cls ttl with
        | none => (Except.ok (), [])
        | some rp => apply_restore_placement env hwnd rp) := by
  simp [restore_window, hv, hc, ht, hp, ho, hop, hexe]

/-- With an active topology, a visible top-level window and all identity
queries succeeding, `capture_window` performs exactly the keyed REPLACE of the
serialized current placement. -/
theorem capture_window_resolved (t : Nat) (env : Env) (db : AppDb) (hwnd : HWND)
    (cls ttl : String) (p : WINDOWPLACEMENT) (o : OwnerInfo) (ph : Nat) (exe : String)
    (hv : env.is_visible hwnd = true)
    (htl : is_top_level env hwnd = true)
    (hc : env.class_name hwnd = Except.ok cls)
    (ht : env.title hwnd = Except.ok ttl)
    (hp : env.placement hwnd = Except.ok p)
    (ho : env.owner hwnd = Except.ok o)
    (hop : env.open_process PROCESS_QUERY_INFORMATION o.process_id = Except.ok ph)
    (hexe : env.full_image_name ph = Except.ok exe) :
    capture_window (some t) env db hwnd =
      some (Except.ok (dbReplaceAppWindow db ⟨exe, t, cls, ttl⟩
        (serializeWD (WindowDisplay.fromPlacement p)))) := by
  simp [capture_window, hv, htl, hc, ht, hp, ho, hop, hexe]

/-- A lookup immediately after the REPLACE issued by capture, with the same
topology and identity, decodes exactly the captured placement. -/
theorem find_window_after_replace (db : AppDb) (t : Nat) (exe cls ttl : String)
    (w : WindowDisplay) :
    find_window (dbReplaceAppWindow db ⟨exe, t, cls, ttl⟩ (serializeWD w)) t exe cls ttl =
      some w := by
  simp [find_window, dbQueryAppWindow, dbReplaceAppWindow, rowMatches, List.find?_cons,
    deserializeWD_serializeWD]

/-- Concrete window handle used by witnesses. -/
def hwnd1 : HWND := ⟨1⟩

/-- Concrete window handle used by witnesses. -/
def hwnd2 : HWND := ⟨2⟩

/-- Concrete window handle used by witnesses. -/
def hwnd3 : HWND := ⟨3⟩

/-- Concrete executable path used by witnesses. -/
def exeW : String := "notepad.exe"

/-- Concrete window class used by witnesses. -/
def clsW : String := "Notepad"

/-- Concrete window title used by witnesses. -/
def ttlW : String := "Untitled - Notepad"

/-- Concrete monitor rectangle used by witnesses. -/
def rectA : Rect := ⟨0, 0, 1920, 1080⟩

/-- Concrete normal-position rectangle used by witnesses. -/
def rect100 : Rect := ⟨100, 100, 740, 580⟩

/-- A stored maximized placement used by witnesses. -/
def wdMax : WindowDisplay := ⟨SW_MAXIMIZE, ⟨1, 2⟩, ⟨3, 4⟩, ⟨10, 20, 300, 400⟩⟩

/-- The current placement reported by the OS in witnesses. -/
def pCur : WINDOWPLACEMENT := ⟨WINDOWPLACEMENT_SIZE, 0, SW_SHOWNORMAL, ⟨0, 0⟩, ⟨0, 0⟩, rect100⟩

/-- The owning process reported by the OS in witnesses. -/
def ownerW : OwnerInfo := ⟨7, 8⟩

/-- A fully successful OS environment used by witnesses: one visible
top-level window resolving to the notepad identity, one monitor. -/
def envBase : Env :=
  { is_visible := fun _ => true
    ancestor_root := fun h => h
    class_name := fun _ => Except.ok clsW
    title := fun _ => Except.ok ttlW
    placement := fun _ => Except.ok pCur
    owner := fun _ => Except.ok ownerW
    open_process := fun _ _ => Except.ok 5
    full_image_name := fun _ => Except.ok exeW
    set_placement_ok := fun _ _ => true
    windows := Except.ok [hwnd1]
    monitors := Except.ok [Except.ok rectA] }

/-- Environment whose middle enumerated window fails class-name resolution. -/
def envC6 : Env :=
  { envBase with
    windows := Except.ok [hwnd1, hwnd2, hwnd3]
    class_name := fun h => if h.id == 2 then Except.error OsError.apiFailure else Except.ok clsW }

/-- Environment whose window enumeration itself fails. -/
def envErr : Env :=
  { envBase with windows := Except.error OsError.apiFailure }

/-- The empty store created at startup. -/
def dbEmpty : AppDb := ⟨[], []⟩

/-- Store holding one maximized placement for the notepad identity under
topology 1. -/
def dbMax : AppDb := ⟨[⟨⟨exeW, 1, clsW, ttlW⟩, serializeWD wdMax⟩], []⟩

/-- Hook state after registering token 10 with callback 0 on the empty
table. -/
def hookS1 : HookState := EventHook.register ⟨[], []⟩ 10 0

/-- C9: with `active_topology = None`, both `App::capture_window` and
`App::restore_window` hit the `.expect("no active topology")` panic (modelled
as `none`) — a fatal defect, not a recoverable error; with any established
topology the fatal branch is unreachable (the result is always `some`). -/
theorem c9_active_topology_fatal (env : Env) (db : AppDb) (hwnd : HWND) :
    capture_window none env db hwnd = none ∧
    restore_window none env db hwnd = none ∧
    ∀ t : Nat, (capture_window (some t) env db hwnd).isSome = true ∧
      (restore_window (some t) env db hwnd).isSome = true :=
  ⟨rfl, rfl, fun t => ⟨capture_window_isSome t env db hwnd, restore_window_isSome t env db hwnd⟩⟩

/-- C5 counterexample: register token 10, unregister its handle, then
dispatch a notification carrying token 10 — `event_cb` still finds the table
entry (`EventHook::unregister` never removes it) and invokes the callback,
so the notification is *not* silently dropped as the claim states. -/
theorem c5_counterexample :
    event_cb (EventHook.unregister hookS1 10) 10 5 hwnd1 = some (0, 5, hwnd1) := rfl

/-- C5 (amended): `EventHook::unregister` removes only the OS-level hook and
leaves the `EVENT_TABLE` entry in place, so dispatch behaviour is unchanged
by unregistration: a notification carrying the unregistered handle's token
still invokes the subscription's callback without error, and only a
notification whose token has no table entry at all is silently dropped. -/
theorem c5_unregister_table_retained (s : HookState) (handle tok : Int) (event : Nat) (w : HWND) :
    (EventHook.unregister s handle).event_table = s.event_table ∧
    event_cb (EventHook.unregister s handle) tok event w = event_cb s tok event w ∧
    (tableGet s.event_table tok = none → event_cb s tok event w = none) := by
  refine ⟨rfl, rfl, ?_⟩
  intro h
  simp [event_cb, h]

/-- C5 witness: the amended statement evaluated on the one-entry hook state
and a foreign token. -/
theorem c5_witness :
    (EventHook.unregister hookS1 10).event_table = hookS1.event_table ∧
    event_cb (EventHook.unregister hookS1 10) 11 5 hwnd1 = event_cb hookS1 11 5 hwnd1 ∧
    (tableGet hookS1.event_table 11 = none → event_cb hookS1 11 5 hwnd1 = none) :=
  c5_unregister_table_retained hookS1 10 11 5 hwnd1

/-- C10: for a window whose OS-reported title is non-empty, `HwndExt::title`
converts the whole `(len+1)`-unit buffer, so the returned string is the title
followed by a trailing NUL; an OS-reported empty title yields the empty
string with no NUL; `HwndExt::class_name` converts only the `n` copied units
and returns the class name without a terminator. -/
theorem c10_title_trailing_nul (s : String) (hne : s.data ≠ []) (hlen : s.data.length ≤ 255) :
    HwndExt.title s = Except.ok (String.mk (s.data ++ [Char.ofNat 0])) ∧
    (String.mk (s.data ++ [Char.ofNat 0])).data.getLast? = some (Char.ofNat 0) ∧
    HwndExt.title (String.mk []) = Except.ok (String.mk []) ∧
    HwndExt.class_name s = Except.ok s := by
  have hlen0 : ¬ (s.data.length = 0) := fun h => hne (List.length_eq_zero.mp h)
  refine ⟨?_, ?_, rfl, ?_⟩
  · simp only [HwndExt.title]
    rw [if_neg hlen0]
  · simp [List.getLast?_concat]
  · have hpos : 0 < s.data.length := Nat.pos_of_ne_zero hlen0
    have hmin : min s.data.length 255 = s.data.length := Nat.min_eq_left hlen
    simp only [HwndExt.class_name, hmin]
    rw [if_pos hpos, List.take_length]

/-- C10 witness: evaluated on the concrete class-name string. -/
theorem c10_witness :
    HwndExt.title clsW = Except.ok (String.mk (clsW.data ++ [Char.ofNat 0])) ∧
    (String.mk (clsW.data ++ [Char.ofNat 0])).data.getLast? = some (Char.ofNat 0) ∧
    HwndExt.title (String.mk []) = Except.ok (String.mk []) ∧
    HwndExt.class_name clsW = Except.ok clsW :=
  c10_title_trailing_nul clsW (by decide) (by decide)

/-- C1: when the stored record's show-state is `SW_MAXIMIZE`,
`App::restore_window` applies the placement in exactly two
`SetWindowPlacement` calls — the first with showCmd forced to
`SW_SHOWNORMAL` but the stored rect and positions, the second with the
original maximized show-state and the original rect and positions; for every
other show-state the placement is applied in a single call. -/
theorem c1_restore_maximize_two_step (t : Nat) (env : Env) (db : AppDb) (hwnd : HWND)
    (cls ttl : String) (p : WINDOWPLACEMENT) (o : OwnerInfo) (ph : Nat) (exe : String)
    (rp : WindowDisplay)
    (hv : env.is_visible hwnd = true)
    (hc : env.class_name hwnd = Except.ok cls)
    (ht : env.title hwnd = Except.ok ttl)
    (hp : env.placement hwnd = Except.ok p)
    (ho : env.owner hwnd = Except.ok o)
    (hop : env.open_process PROCESS_QUERY_INFORMATION o.process_id = Except.ok ph)
    (hexe : env.full_image_name ph = Except.ok exe)
    (hfind : find_window db t exe cls ttl = some rp)
    (hset : ∀ wp, env.set_placement_ok hwnd wp = true) :
    (rp.show_st = SW_MAXIMIZE →
      restore_window (some t) env db hwnd =
        some (Except.ok (),
          [⟨WINDOWPLACEMENT_SIZE, WPF_ASYNCWINDOWPLACEMENT, SW_SHOWNORMAL, rp.min, rp.max, rp.rect⟩,
           ⟨WINDOWPLACEMENT_SIZE, WPF_ASYNCWINDOWPLACEMENT, rp.show_st, rp.min, rp.max, rp.rect⟩])) ∧
    (rp.show_st ≠ SW_MAXIMIZE →
      restore_window (some t) env db hwnd =
        some (Except.ok (),
          [⟨WINDOWPLACEMENT_SIZE, WPF_ASYNCWINDOWPLACEMENT, rp.show_st, rp.min, rp.max, rp.rect⟩])) := by
  rw [restore_window_resolved t env db hwnd cls ttl p o ph exe hv hc ht hp ho hop hexe, hfind]
  constructor
  · intro hmax
    simp [apply_restore_placement, hmax, hset]
  · intro hnm
    simp [apply_restore_placement, hnm, hset]

/-- C1 witness: restoring the stored maximized notepad placement issues the
two concrete placement calls. -/
theorem c1_witness :
    wdMax.show_st = SW_MAXIMIZE ∧
    restore_window (some 1) envBase dbMax hwnd1 =
      some (Except.ok (),
        [⟨WINDOWPLACEMENT_SIZE, WPF_ASYNCWINDOWPLACEMENT, SW_SHOWNORMAL, wdMax.min, wdMax.max, wdMax.rect⟩,
         ⟨WINDOWPLACEMENT_SIZE, WPF_ASYNCWINDOWPLACEMENT, wdMax.show_st, wdMax.min, wdMax.max, wdMax.rect⟩]) :=
  ⟨rfl,
    (c1_restore_maximize_two_step 1 envBase dbMax hwnd1 clsW ttlW pCur ownerW 5 exeW wdMax
      rfl rfl rfl rfl rfl rfl rfl rfl (fun _ => rfl)).1 rfl⟩

/-- C7: restoring a visible window whose resolved identity has no record
under the active topology issues no `SetWindowPlacement` call and returns
without error. -/
theorem c7_unknown_restore_noop (t : Nat) (env : Env) (db : AppDb) (hwnd : HWND)
    (cls ttl : String) (p : WINDOWPLACEMENT) (o : OwnerInfo) (ph : Nat) (exe : String)
    (hv : env.is_visible hwnd = true)
    (hc : env.class_name hwnd = Except.ok cls)
    (ht : env.title hwnd = Except.ok ttl)
    (hp : env.placement hwnd = Except.ok p)
    (ho : env.owner hwnd = Except.ok o)
    (hop : env.open_process PROCESS_QUERY_INFORMATION o.process_id = Except.ok ph)
    (hexe : env.full_image_name ph = Except.ok exe)
    (hfind : find_window db t exe cls ttl = none) :
    restore_window (some t) env db hwnd = some (Except.ok (), []) := by
  rw [restore_window_resolved t env db hwnd cls ttl p o ph exe hv hc ht hp ho hop hexe, hfind]

/-- C7 witness: restoring over the empty store is a no-op. -/
theorem c7_witness :
    find_window dbEmpty 1 exeW clsW ttlW = none ∧
    restore_window (some 1) envBase dbEmpty hwnd1 = some (Except.ok (), []) :=
  ⟨rfl,
    c7_unknown_restore_noop 1 envBase dbEmpty hwnd1 clsW ttlW pCur ownerW 5 exeW
      rfl rfl rfl rfl rfl rfl rfl rfl⟩

/-- C8: `App::capture_window` writes the keyed record exactly when the window
is visible and top-level (its GA_ROOT ancestor is itself), and otherwise
succeeds without touching the store; `App::restore_window` is a successful
no-op on an invisible window and never consults top-level-ness (its result is
invariant under any change of the ancestor-root resolver). -/
theorem c8_eligibility (t : Nat) (env : Env) (db : AppDb) (hwnd : HWND)
    (cls ttl : String) (p : WINDOWPLACEMENT) (o : OwnerInfo) (ph : Nat) (exe : String)
    (hc : env.class_name hwnd = Except.ok cls)
    (ht : env.title hwnd = Except.ok ttl)
    (hp : env.placement hwnd = Except.ok p)
    (ho : env.owner hwnd = Except.ok o)
    (hop : env.open_process PROCESS_QUERY_INFORMATION o.process_id = Except.ok ph)
    (hexe : env.full_image_name ph = Except.ok exe) :
    ((env.is_visible hwnd && is_top_level env hwnd) = false →
      capture_window (some t) env db hwnd = some (Except.ok db)) ∧
    ((env.is_visible hwnd && is_top_level env hwnd) = true →
      capture_window (some t) env db hwnd =
        some (Except.ok (dbReplaceAppWindow db ⟨exe, t, cls, ttl⟩
          (serializeWD (WindowDisplay.fromPlacement p))))) ∧
    (env.is_visible hwnd = false →
      restore_window (some t) env db hwnd = some (Except.ok (), [])) ∧
    (∀ f : HWND → HWND,
      restore_window (some t) { env with ancestor_root := f } db hwnd =
        restore_window (some t) env db hwnd) := by
  refine ⟨?_, ?_, ?_, ?_⟩
  · intro hfalse
    simp [capture_window, hfalse]
  · intro htrue
    obtain ⟨hv, htl⟩ := Bool.and_eq_true_iff.mp htrue
    exact capture_window_resolved t env db hwnd cls ttl p o ph exe hv htl hc ht hp ho hop hexe
  · intro hinv
    simp [restore_window, hinv]
  · intro f
    rfl

/-- C8 witness: evaluated on the all-succeeding environment, where the window
is visible and top-level. -/
theorem c8_witness :
    ((envBase.is_visible hwnd1 && is_top_level envBase hwnd1) = false →
      capture_window (some 1) envBase dbEmpty hwnd1 = some (Except.ok dbEmpty)) ∧
    ((envBase.is_visible hwnd1 && is_top_level envBase hwnd1) = true →
      capture_window (some 1) envBase dbEmpty hwnd1 =
        some (Except.ok (dbReplaceAppWindow dbEmpty ⟨exeW, 1, clsW, ttlW⟩
          (serializeWD (WindowDisplay.fromPlacement pCur))))) ∧
    (envBase.is_visible hwnd1 = false →
      restore_window (some 1) envBase dbEmpty hwnd1 = some (Except.ok (), [])) ∧
    (∀ f : HWND → HWND,
      restore_window (some 1) { envBase with ancestor_root := f } dbEmpty hwnd1 =
        restore_window (some 1) envBase dbEmpty hwnd1) :=
  c8_eligibility 1 envBase dbEmpty hwnd1 clsW ttlW pCur ownerW 5 exeW
    rfl rfl rfl rfl rfl rfl

/-- C4: records stored under distinct topology ids are independent — a
REPLACE under topology `t1` is invisible to any `App::find_window` lookup
under `t2 ≠ t1` with the same path, class and title: the lookup result is
exactly what it was before the write (exact-match keying, no fuzzy or partial
matching). -/
theorem c4_key_isolation (db : AppDb) (t1 t2 : Nat) (path cls ttl : String) (bytes : List Int)
    (hne : t2 ≠ t1) :
    find_window (dbReplaceAppWindow db ⟨path, t1, cls, ttl⟩ bytes) t2 path cls ttl =
      find_window db t2 path cls ttl := by
  have hbeq : (t1 == t2) = false := beq_eq_false_iff_ne.mpr (fun h => hne h.symm)
  have hhead : ¬ rowMatches ⟨⟨path, t1, cls, ttl⟩, bytes⟩ t2 path cls ttl = true := by
    simp [rowMatches, hbeq]
  have hfilter : ∀ r ∈ db.appwindow, rowMatches r t2 path cls ttl = true →
      (!(sameKey r.key ⟨path, t1, cls, ttl⟩)) = true := by
    intro r _ hmatch
    have htop : r.key.topology = t2 := by
      have h1 := (Bool.and_eq_true_iff.mp hmatch).1
      have h2 := (Bool.and_eq_true_iff.mp h1).1
      have h3 := (Bool.and_eq_true_iff.mp h2).1
      exact eq_of_beq h3
    have hsk : sameKey r.key ⟨path, t1, cls, ttl⟩ = false := by
      have : (r.key.topology == t1) = false := by
        rw [htop]
        exact beq_eq_false_iff_ne.mpr hne
      simp [sameKey, this]
    simp [hsk]
  have hhead2 : rowMatches ⟨⟨path, t1, cls, ttl⟩, bytes⟩ t2 path cls ttl = false := by
    simp [rowMatches, hbeq]
  unfold find_window dbQueryAppWindow dbReplaceAppWindow
  dsimp only
  rw [List.find?_cons]
  simp only [hhead2]
  rw [find?_filter_of_imp _ _ _ hfilter]

/-- C4 witness: a write under topology 1 does not surface under topology 2. -/
theorem c4_witness :
    (2 : Nat) ≠ 1 ∧
    find_window (dbReplaceAppWindow dbEmpty ⟨exeW, 1, clsW, ttlW⟩ (serializeWD wdMax)) 2
        exeW clsW ttlW =
      find_window dbEmpty 2 exeW clsW ttlW :=
  ⟨by decide, c4_key_isolation dbEmpty 1 2 exeW clsW ttlW (serializeWD wdMax) (by decide)⟩

/-- C3: capture of a Normal placement with normal rect (100,100,740,580)
under topology `t`, followed by a restore of a visible window resolving to
the same identity while `t` is active, applies a single placement whose
normal rect is (100,100,740,580) and whose show-state is `SW_SHOWNORMAL` —
the serialize/REPLACE/lookup/deserialize round trip preserves the captured
placement. -/
theorem c3_capture_restore_round_trip (t : Nat) (env1 env2 : Env) (db db2 : AppDb)
    (h1 h2 : HWND) (cls ttl exe : String) (p p2 : WINDOWPLACEMENT)
    (o1 o2 : OwnerInfo) (ph1 ph2 : Nat)
    (hshow : p.showCmd = SW_SHOWNORMAL)
    (hrect : p.rcNormalPosition = rect100)
    (hv1 : env1.is_visible h1 = true)
    (htl1 : is_top_level env1 h1 = true)
    (hc1 : env1.class_name h1 = Except.ok cls)
    (ht1 : env1.title h1 = Except.ok ttl)
    (hp1 : env1.placement h1 = Except.ok p)
    (ho1 : env1.owner h1 = Except.ok o1)
    (hop1 : env1.open_process PROCESS_QUERY_INFORMATION o1.process_id = Except.ok ph1)
    (hexe1 : env1.full_image_name ph1 = Except.ok exe)
    (hcap : capture_window (some t) env1 db h1 = some (Except.ok db2))
    (hv2 : env2.is_visible h2 = true)
    (hc2 : env2.class_name h2 = Except.ok cls)
    (ht2 : env2.title h2 = Except.ok ttl)
    (hp2 : env2.placement h2 = Except.ok p2)
    (ho2 : env2.owner h2 = Except.ok o2)
    (hop2 : env2.open_process PROCESS_QUERY_INFORMATION o2.process_id = Except.ok ph2)
    (hexe2 : env2.full_image_name ph2 = Except.ok exe)
    (hset : ∀ wp, env2.set_placement_ok h2 wp = true) :
    ∃ wp : WINDOWPLACEMENT,
      restore_window (some t) env2 db2 h2 = some (Except.ok (), [wp]) ∧
      wp.rcNormalPosition = rect100 ∧ wp.showCmd = SW_SHOWNORMAL := by
  have hres := capture_window_resolved t env1 db h1 cls ttl p o1 ph1 exe
    hv1 htl1 hc1 ht1 hp1 ho1 hop1 hexe1
  rw [hres] at hcap
  have hdb2 : dbReplaceAppWindow db ⟨exe, t, cls, ttl⟩
      (serializeWD (WindowDisplay.fromPlacement p)) = db2 := by
    simpa using hcap
  rw [restore_window_resolved t env2 db2 h2 cls ttl p2 o2 ph2 exe
    hv2 hc2 ht2 hp2 ho2 hop2 hexe2]
  rw [← hdb2, find_window_after_replace]
  refine ⟨⟨WINDOWPLACEMENT_SIZE, WPF_ASYNCWINDOWPLACEMENT, SW_SHOWNORMAL,
    p.ptMinPosition, p.ptMaxPosition, rect100⟩, ?_, rfl, rfl⟩
  simp [apply_restore_placement, WindowDisplay.fromPlacement, hshow, hrect, hset,
    SW_SHOWNORMAL, SW_MAXIMIZE]

/-- C3 witness: the round trip evaluated concretely — capture the current
Normal placement of the notepad window into the empty store, then restore a
second window with the same identity. -/
theorem c3_witness :
    ∃ wp : WINDOWPLACEMENT,
      restore_window (some 1) envBase
          (dbReplaceAppWindow dbEmpty ⟨exeW, 1, clsW, ttlW⟩
            (serializeWD (WindowDisplay.fromPlacement pCur))) hwnd2 =
        some (Except.ok (), [wp]) ∧
      wp.rcNormalPosition = rect100 ∧ wp.showCmd = SW_SHOWNORMAL :=
  c3_capture_restore_round_trip 1 envBase envBase dbEmpty
    (dbReplaceAppWindow dbEmpty ⟨exeW, 1, clsW, ttlW⟩
      (serializeWD (WindowDisplay.fromPlacement pCur)))
    hwnd1 hwnd2 clsW ttlW exeW pCur pCur ownerW ownerW 5 5
    rfl rfl rfl rfl rfl rfl rfl rfl rfl rfl rfl rfl rfl rfl rfl rfl rfl rfl (fun _ => rfl)

/-- C2: while the enumerated monitor rectangles are unchanged, two
consecutive `App::capture_topology` calls return the same rowid, the second
call leaves the store untouched, and the insert-if-absent keeps the stored
serialized-topology blobs free of duplicates. -/
theorem c2_topology_idempotent (env env2 : Env) (db db1 db2 : AppDb) (id1 id2 : Nat)
    (hnd : (db.topology.map Prod.snd).Nodup)
    (hmon : env2.monitors = env.monitors)
    (h1 : capture_topology env db = Except.ok (id1, db1))
    (h2 : capture_topology env2 db1 = Except.ok (id2, db2)) :
    id2 = id1 ∧ db2 = db1 ∧ (db1.topology.map Prod.snd).Nodup := by
  unfold capture_topology at h1 h2
  rw [hmon] at h2
  cases hm : env.monitors with
  | error e => rw [hm] at h1; simp at h1
  | ok infos =>
    rw [hm] at h1 h2
    dsimp only at h1 h2
    cases hcr : collectRects infos with
    | error e => rw [hcr] at h1; simp at h1
    | ok rects =>
      rw [hcr] at h1 h2
      dsimp only at h1 h2
      cases hf1 : dbFindTopologyId (dbInsertOrIgnoreTopology db (serializeTopology ⟨rects⟩))
          (serializeTopology ⟨rects⟩) with
      | none => rw [hf1] at h1; simp at h1
      | some i =>
        rw [hf1] at h1
        simp only [Except.ok.injEq, Prod.mk.injEq] at h1
        obtain ⟨hi, hdb1⟩ := h1
        have hf1b : dbFindTopologyId db1 (serializeTopology ⟨rects⟩) = some i := by
          rw [← hdb1]; exact hf1
        have hfound : db1.topology.any (fun r => r.2 == serializeTopology ⟨rects⟩) = true :=
          dbFindTopologyId_any db1 (serializeTopology ⟨rects⟩) i hf1b
        have hins : dbInsertOrIgnoreTopology db1 (serializeTopology ⟨rects⟩) = db1 :=
          dbInsertOrIgnoreTopology_of_found db1 (serializeTopology ⟨rects⟩) hfound
        rw [hins, hf1b] at h2
        simp only [Except.ok.injEq, Prod.mk.injEq] at h2
        obtain ⟨hi2, hdb2⟩ := h2
        refine ⟨hi2.symm.trans hi, hdb2.symm, ?_⟩
        rw [← hdb1]
        exact dbInsertOrIgnoreTopology_nodup db (serializeTopology ⟨rects⟩) hnd

/-- C2 witness: capturing the single-monitor topology twice over the empty
store returns rowid 1 both times and stores one row. -/
theorem c2_witness :
    (1 : Nat) = 1 ∧
    AppDb.mk ([] : List AppWindowRow) [(1, serializeTopology ⟨[rectA]⟩)] =
      AppDb.mk ([] : List AppWindowRow) [(1, serializeTopology ⟨[rectA]⟩)] ∧
    ((AppDb.mk ([] : List AppWindowRow)
        [(1, serializeTopology ⟨[rectA]⟩)]).topology.map Prod.snd).Nodup :=
  c2_topology_idempotent envBase envBase dbEmpty
    (AppDb.mk [] [(1, serializeTopology ⟨[rectA]⟩)])
    (AppDb.mk [] [(1, serializeTopology ⟨[rectA]⟩)]) 1 1
    (by decide) rfl rfl rfl

/-- C6: with one window among the enumerated handles failing its per-window
capture, `App::capture_windows` still succeeds and its result is exactly the
fold over the remaining handles (the failing one contributes nothing), and
`App::restore_windows` still succeeds while processing every enumerated
handle; when the window enumeration itself fails, both batch calls return the
enumeration error — the batch errors exactly when enumeration errors. -/
theorem c6_batch_isolation (t : Nat) (env env2 : Env) (db : AppDb)
    (pre post : List HWND) (bad : HWND)
    (henum : env.windows = Except.ok (pre ++ bad :: post))
    (hbad : ∀ d : AppDb, ∃ e, capture_window (some t) env d bad = some (Except.error e))
    (henum2 : env2.windows = Except.error OsError.apiFailure) :
    capture_windows (some t) env db =
      some (Except.ok ((pre ++ post).foldl (fun d h => capture_step_ok t env d h) db)) ∧
    restore_windows (some t) env db =
      some (Except.ok ((pre ++ bad :: post).map (fun h => (h, restore_calls t env db h)))) ∧
    capture_windows (some t) env2 db = some (Except.error OsError.apiFailure) ∧
    restore_windows (some t) env2 db = some (Except.error OsError.apiFailure) := by
  refine ⟨?_, ?_, ?_, ?_⟩
  · unfold capture_windows
    rw [henum]
    dsimp only
    rw [capture_foldl_eq]
    have hskip : (pre ++ bad :: post).foldl (fun d h => capture_step_ok t env d h) db =
        (pre ++ post).foldl (fun d h => capture_step_ok t env d h) db := by
      rw [List.foldl_append, List.foldl_cons, capture_step_ok_of_error t env bad hbad,
        List.foldl_append]
    rw [hskip]
  · unfold restore_windows
    rw [henum]
    dsimp only
    rw [restore_foldl_eq]
    simp
  · unfold capture_windows
    rw [henum2]
  · unfold restore_windows
    rw [henum2]

/-- C6 witness: three enumerated windows with the middle one failing
class-name resolution; both batches succeed, the capture fold runs over the
other two, and the enumeration-failure environment errors both batches. -/
theorem c6_witness :
    capture_windows (some 1) envC6 dbEmpty =
      some (Except.ok ([hwnd1, hwnd3].foldl (fun d h => capture_step_ok 1 envC6 d h) dbEmpty)) ∧
    restore_windows (some 1) envC6 dbEmpty =
      some (Except.ok ([hwnd1, hwnd2, hwnd3].map (fun h => (h, restore_calls 1 envC6 dbEmpty h)))) ∧
    capture_windows (some 1) envErr dbEmpty = some (Except.error OsError.apiFailure) ∧
    restore_windows (some 1) envErr dbEmpty = some (Except.error OsError.apiFailure) :=
  c6_batch_isolation 1 envC6 envErr dbEmpty [hwnd1] [hwnd3] hwnd2
    rfl (fun _ => ⟨OsError.apiFailure, rfl⟩) rfl
